import Mathlib

/-!
Shallow embedding of the chaoscraft payment-to-queue pipeline.

Sources embedded here:
- apps/portal/app/api/submit/route.ts           (pricing, validation, payment insertion)
- apps/portal/app/api/payment/stripe-webhook/route.ts  (card webhook state machine)
- apps/portal/app/api/payment/solana/route.ts   (token-transfer verification)
- apps/portal/app/api/queue/route.ts            (queue ranking and ETA)
- apps/portal/lib/db.ts                         (payments/requests schema)

External effects (SQLite, the Stripe SDK, the GitHub API, the Solana RPC) are
modelled by explicit state passing: the database is a value, created issues are
returned in a list, chain lookups are a function argument, and clock readings
and issue numbers assigned by GitHub are parameters.
-/

/-- Status values written into payments.status by the routes
('pending', 'verified', 'expired', 'failed'). -/
inductive PStatus
  | pending
  | verified
  | expired
  | failed
deriving DecidableEq, Repr

/-- One row of the payments table (lib/db.ts schema).  id is the AUTOINCREMENT
primary key; payment_id is the external reference; amount is the integer stored
by the submit route; issue_number is filled in after issue creation. -/
structure Payment where
  id : Nat
  payment_id : String
  amount : Nat
  currency : String
  payment_method : String
  priority : String
  status : PStatus
  verified_at : Option String
  issue_number : Option Nat
deriving DecidableEq, Repr

/-- One row of the requests table (lib/db.ts schema). -/
structure RequestRow where
  issue_number : Nat
  request_text : String
  priority : String
deriving DecidableEq, Repr

/-- The SQLite database state: the payments and requests tables. -/
structure Db where
  payments : List Payment
  requests : List RequestRow
deriving DecidableEq, Repr

/-- A GitHub issue created through octokit.rest.issues.create, as far as the
routes are concerned: its assigned number, title and labels. -/
structure CreatedIssue where
  number : Nat
  title : String
  labels : List String
deriving DecidableEq, Repr

/-- First row of a payments list whose id matches. -/
def findRow (pid : Nat) : List Payment → Option Payment
  | [] => none
  | p :: ps => if p.id = pid then some p else findRow pid ps

/-- queryOne('SELECT * FROM payments WHERE id = ?'): first row matching the id. -/
def findPayment (db : Db) (pid : Nat) : Option Payment :=
  findRow pid db.payments

/-- run('UPDATE payments SET ... WHERE id = ?'): rewrite every row whose id
matches (ids are unique in practice, but the UPDATE itself is by predicate). -/
def updatePayment (db : Db) (pid : Nat) (f : Payment → Payment) : Db :=
  { db with payments := db.payments.map (fun p => if p.id = pid then f p else p) }

/-- Labels attached to a created issue:
['ready-for-build', priority === 'standard' ? '' : `priority:$\x7bpriority\x7d`].filter(Boolean)
(both webhook routes use the same expression). -/
def issueLabels (priority : String) : List String :=
  "ready-for-build" :: (if priority = "standard" then [] else ["priority:" ++ priority])

/-- createIssueAndUpdateDb of the webhook routes: create the GitHub issue,
store its number on the payment row, and insert a requests row.  The issue
number GitHub assigns is passed in as issueNum. -/
def createIssueAndUpdateDb (db : Db) (paymentDbId : Nat) (requestText priority : String)
    (issueNum : Nat) : Db × CreatedIssue :=
  let issue : CreatedIssue := ⟨issueNum, requestText, issueLabels priority⟩
  let db1 := updatePayment db paymentDbId (fun p => { p with issue_number := some issueNum })
  let db2 := { db1 with requests := db1.requests ++ [⟨issueNum, requestText, priority⟩] }
  (db2, issue)

/-- Whether the first character list is a prefix of the second. -/
def charsPre (needle hay : List Char) : Bool :=
  match needle, hay with
  | [], _ => true
  | _ :: _, [] => false
  | a :: ns, b :: hs => a = b && charsPre ns hs

/-- Whether the first character list occurs inside the second. -/
def charsSub (needle hay : List Char) : Bool :=
  charsPre needle hay ||
    match hay with
    | [] => false
    | _ :: hs => charsSub needle hs

/-- SQL LIKE '%needle%' used by the payment_intent.payment_failed branch:
substring containment. -/
def likeContains (hay needle : String) : Bool :=
  charsSub needle.data hay.data

/-- queryOne('SELECT * FROM payments WHERE payment_id LIKE ?') with pattern
'%intentId%': first row whose external reference contains the intent id. -/
def findRowLike (intentId : String) : List Payment → Option Payment
  | [] => none
  | p :: ps => if likeContains p.payment_id intentId then some p else findRowLike intentId ps

/-- The Stripe events the webhook switch distinguishes.  checkoutCompleted
carries session.payment_status and the session metadata; checkoutExpired
carries parseInt(session.metadata?.paymentDbId || '0'), so a missing id is 0. -/
inductive StripeEvent
  | checkoutCompleted (paymentStatus : String) (paymentDbId : Nat)
      (requestText : String) (priority : String)
  | checkoutExpired (paymentDbId : Nat)
  | paymentFailed (intentId : String)
  | otherEvent (eventType : String)
deriving DecidableEq, Repr

/-- The observable outcome of one webhook delivery: the HTTP status, whether
the body was the success body, the database afterwards, and the GitHub issues
created during the call. -/
structure WebhookResult where
  httpStatus : Nat
  received : Bool
  db : Db
  issues : List CreatedIssue
deriving DecidableEq, Repr

/-- The event dispatch of apps/portal/app/api/payment/stripe-webhook/route.ts
after signature verification.  now is the new Date().toISOString() reading and
nextIssue the number GitHub would assign to a created issue. -/
def handleStripeEvent (db : Db) (ev : StripeEvent) (now : String) (nextIssue : Nat) :
    WebhookResult :=
  match ev with
  | .checkoutCompleted paymentStatus paymentDbId requestText priority =>
    if paymentStatus = "paid" then
      match findPayment db paymentDbId with
      | none => ⟨404, false, db, []⟩
      | some existingPayment =>
        if existingPayment.status = PStatus.verified then
          ⟨200, true, db, []⟩
        else
          let db1 := updatePayment db paymentDbId (fun p =>
            { p with status := PStatus.verified, verified_at := some now })
          let res := createIssueAndUpdateDb db1 paymentDbId requestText priority nextIssue
          ⟨200, true, res.1, [res.2]⟩
    else
      ⟨200, true, db, []⟩
  | .checkoutExpired paymentDbId =>
    if 0 < paymentDbId then
      ⟨200, true, updatePayment db paymentDbId (fun p => { p with status := PStatus.expired }), []⟩
    else
      ⟨200, true, db, []⟩
  | .paymentFailed intentId =>
    match findRowLike intentId db.payments with
    | some payment =>
      ⟨200, true, updatePayment db payment.id (fun p => { p with status := PStatus.failed }), []⟩
    | none => ⟨200, true, db, []⟩
  | .otherEvent _ => ⟨200, true, db, []⟩

/-- POST of the stripe webhook route: a failed signature check answers 401 and
touches nothing; otherwise the event is dispatched. -/
def stripeWebhookPOST (sigValid : Bool) (ev : StripeEvent) (db : Db) (now : String)
    (nextIssue : Nat) : WebhookResult :=
  if sigValid then handleStripeEvent db ev now nextIssue
  else ⟨401, false, db, []⟩

/-! Token-transfer verification (apps/portal/app/api/payment/solana/route.ts). -/

/-- The parts of a parsed Solana transaction the route touches.  metaErr is
"!parsedTx.meta || parsedTx.meta.err"; accountKeys and the instruction count
come from the message.  transferAmount is the token amount carried in the
instruction data of the parsed transaction; the source never decodes it (its
own comment: "In production, you'd decode instruction data to verify exact
amount"). -/
structure SolTx where
  metaErr : Bool
  accountKeys : List String
  numInstructions : Nat
  transferAmount : Nat
deriving DecidableEq, Repr

/-- Result of verifySolanaTransaction: valid with the sender address, or
invalid with the error string. -/
inductive VerifyResult
  | valid (sender : String)
  | invalid (err : String)
deriving DecidableEq, Repr

/-- recipient.toLowerCase() of the source. -/
def strLower (s : String) : String := String.mk (s.data.map Char.toLower)

/-- The for-loop over message.instructions: each iteration looks at the same
accountKeys; when there are at least three keys and key 2 matches the expected
recipient case-insensitively, the loop returns valid with key 1 as sender;
otherwise it falls through to the invalid-recipient error. -/
def scanInstructions (n : Nat) (accountKeys : List String) (expectedRecipient : String) :
    VerifyResult :=
  match n with
  | 0 => .invalid "Transfer not found or invalid recipient"
  | Nat.succ m =>
    if 3 ≤ accountKeys.length then
      if strLower (accountKeys.getD 2 "") = strLower expectedRecipient then
        .valid (accountKeys.getD 1 "")
      else
        scanInstructions m accountKeys expectedRecipient
    else
      scanInstructions m accountKeys expectedRecipient

/-- verifySolanaTransaction of the source, with the RPC lookup result passed
in.  Note that expectedAmount is a parameter of the source function as well,
and the body never reads it. -/
def verifySolanaTransaction (tx : Option SolTx) (expectedAmount : Nat)
    (expectedRecipient : String) : VerifyResult :=
  match tx with
  | none => .invalid "Transaction not found"
  | some t =>
    if t.metaErr then .invalid "Transaction failed"
    else scanInstructions t.numInstructions t.accountKeys expectedRecipient

/-- The observable outcome of one POST to the solana route. -/
structure SolanaResult where
  httpStatus : Nat
  db : Db
  issues : List CreatedIssue
  sender : Option String
deriving DecidableEq, Repr

/-- POST of apps/portal/app/api/payment/solana/route.ts.  walletAddress is the
SOLANA_WALLET_ADDRESS environment value; chain is the RPC lookup by signature;
now and nextIssue are as in the webhook.  The required-field check is the JS
truthiness test, so paymentDbId 0 and empty strings count as missing. -/
def solanaPOST (db : Db) (paymentDbId : Nat) (signature requestText priority : String)
    (walletAddress : Option String) (chain : String → Option SolTx) (now : String)
    (nextIssue : Nat) : SolanaResult :=
  if paymentDbId = 0 ∨ signature = "" ∨ requestText = "" ∨ priority = "" then
    ⟨400, db, [], none⟩
  else
    match walletAddress with
    | none => ⟨500, db, [], none⟩
    | some wallet =>
      match findPayment db paymentDbId with
      | none => ⟨404, db, [], none⟩
      | some payment =>
        if payment.status = PStatus.verified then
          ⟨200, db, [], none⟩
        else
          match verifySolanaTransaction (chain signature) (payment.amount / 100) wallet with
          | .invalid _ =>
            ⟨400, updatePayment db paymentDbId (fun p => { p with status := PStatus.failed }),
              [], none⟩
          | .valid sender =>
            let db1 := updatePayment db paymentDbId (fun p =>
              { p with status := PStatus.verified, verified_at := some now,
                       payment_id := signature })
            let res := createIssueAndUpdateDb db1 paymentDbId requestText priority nextIssue
            ⟨200, res.1, [res.2], some sender⟩

/-! Submission (apps/portal/app/api/submit/route.ts). -/

/-- getPricing of the submit route.  The source comments read the values as
cents: 1000 is "$10", 500 is "$5", 100 is "$1". -/
def getPricing (priority : String) : Nat :=
  match priority with
  | "express" => 1000
  | "priority" => 500
  | _ => 100

/-- amountInCents of the submit route: "const amountInCents = amount * 100",
applied to the getPricing result.  This value is both stored in the payments
row and passed to Stripe as unit_amount. -/
def submitChargeAmount (priority : String) : Nat :=
  getPricing priority * 100

/-- The SQL text of the submit route's INSERT. -/
def submitInsertSql : String :=
  "INSERT INTO payments (payment_id, amount, currency, payment_method, priority, status) VALUES (?, ?, ?, ?, ?, ?)"

/-- Number of ? placeholders in a statement. -/
def bindCount (sql : String) : Nat :=
  (sql.toList.filter (fun c => c = '?')).length

/-- A value bound to a SQLite placeholder. -/
inductive DbValue
  | s (v : String)
  | n (v : Nat)
deriving DecidableEq, Repr

/-- The parameter array the submit route passes to run() for the INSERT:
[paymentId, amountInCents, 'usd', body.paymentMethod, body.priority] — five
values for the statement's six placeholders (the status value is absent). -/
def submitInsertParams (extRef : String) (amountInCents : Nat) (method priority : String) :
    List DbValue :=
  [.s extRef, .n amountInCents, .s "usd", .s method, .s priority]

/-- The columns named by the submit INSERT. -/
def submitInsertColumns : List String :=
  ["payment_id", "amount", "currency", "payment_method", "priority", "status"]

/-- The payments columns declared NOT NULL without a default in lib/db.ts
(id is the autoincrement key and created_at has a default, so they are
excluded). -/
def paymentsRequiredColumns : List String :=
  ["issue_number", "payment_id", "amount", "currency", "payment_method", "priority", "status"]

/-- JS Array.prototype.includes on strings. -/
def includes (l : List String) (a : String) : Bool :=
  match l with
  | [] => false
  | b :: t => if a = b then true else includes t a

/-- Whether the INSERT lists every required column.  Modelled from SQLite:
omitting a NOT NULL column without a default makes the statement fail. -/
def insertSatisfiesNotNull : Bool :=
  (paymentsRequiredColumns.filter (fun c => !(includes submitInsertColumns c))).isEmpty

/-- Whether run() accepts the submit INSERT.  Modelled from better-sqlite3:
binding an array whose length differs from the placeholder count raises, and a
raised error is caught by the route's try/catch (500 response, no row
written); the NOT NULL check is SQLite's. -/
def submitInsertOk : Bool :=
  (bindCount submitInsertSql == (submitInsertParams "x" 0 "m" "p").length)
    && insertSatisfiesNotNull

/-- String.prototype.trim of the validation check "body.request.trim()":
strip whitespace from both ends. -/
def jsTrim (s : String) : String :=
  String.mk (((s.data.dropWhile Char.isWhitespace).reverse.dropWhile
    Char.isWhitespace).reverse)

/-- The ['standard', 'priority', 'express'] literal of the submit route. -/
def validPriorities : List String := ["standard", "priority", "express"]

/-- The ['stripe', 'solana'] literal of the submit route. -/
def validMethods : List String := ["stripe", "solana"]

/-- The response of the submit route, without HTTP framing: a 400 with its
message, the 500 produced by the catch block, or the payment details of the
two methods (checkout carries the Stripe unit_amount, solanaDetails the amount
and paymentDbId of the response body). -/
inductive SubmitResp
  | badRequest (msg : String)
  | serverError
  | checkout (unitAmount : Nat)
  | solanaDetails (amount : Nat) (paymentDbId : Nat)
deriving DecidableEq, Repr

/-- POST of apps/portal/app/api/submit/route.ts: validation in source order,
then pricing, then the INSERT, then the per-method response.  extRef is the
synthetic `stripe_pending_$\x7bDate.now()\x7d` reference and newId the rowid
SQLite would assign.  Returns the response together with the database
afterwards. -/
def submitPOST (db : Db) (requestText paymentMethod priority : String) (extRef : String)
    (newId : Nat) : SubmitResp × Db :=
  if jsTrim requestText = "" then
    (.badRequest "Request text is required", db)
  else if 120 < requestText.length then
    (.badRequest "Request must be 120 characters or less", db)
  else if !(includes validPriorities priority) then
    (.badRequest "Invalid priority", db)
  else if !(includes validMethods paymentMethod) then
    (.badRequest "Invalid payment method", db)
  else
    let amount := getPricing priority
    let amountInCents := submitChargeAmount priority
    if submitInsertOk then
      let row : Payment :=
        ⟨newId, extRef, amountInCents, "usd", paymentMethod, priority, PStatus.pending,
          none, none⟩
      let db1 : Db := { db with payments := db.payments ++ [row] }
      if paymentMethod = "stripe" then (.checkout amountInCents, db1)
      else (.solanaDetails amount newId, db1)
    else
      (.serverError, db)

/-! Queue ranking (apps/portal/app/api/queue/route.ts). -/

/-- Statuses derived for queue entries. -/
inductive QStatus
  | queued
  | building
  | completed
  | failed
deriving DecidableEq, Repr

/-- Priorities derived for queue entries. -/
inductive QPriority
  | standard
  | priority
  | express
deriving DecidableEq, Repr

/-- A GitHub issue as consumed by the queue route: number, title, label names. -/
structure Issue where
  number : Nat
  title : String
  labels : List String
deriving DecidableEq, Repr

/-- Status derivation of the queue route: completed, else building, else
ready-for-build (queued), else failed, defaulting to queued. -/
def deriveStatus (labels : List String) : QStatus :=
  if includes labels "completed" then .completed
  else if includes labels "building" then .building
  else if includes labels "ready-for-build" then .queued
  else if includes labels "failed" then .failed
  else .queued

/-- Priority derivation of the queue route: the label 'priority:express' gives
express, else the label 'priority' gives priority, else standard. -/
def derivePriority (labels : List String) : QPriority :=
  if includes labels "priority:express" then .express
  else if includes labels "priority" then .priority
  else .standard

/-- calculateETA of the queue route: hours = Math.ceil(position / buildsPerHour),
then the format buckets. -/
def calculateETA (position buildsPerHour : Nat) : String :=
  let hours := (position + buildsPerHour - 1) / buildsPerHour
  if hours < 1 then "< 1 hour"
  else if hours = 1 then "~1 hour"
  else if hours < 24 then "~" ++ toString hours ++ " hours"
  else "~" ++ toString ((hours + 23) / 24) ++ " days"

/-- One entry of the queue response. -/
structure QueueEntry where
  id : Nat
  title : String
  position : Nat
  status : QStatus
  priority : QPriority
  eta : Option String
  progress : Option (String × Nat)
deriving DecidableEq, Repr

/-- The per-issue mapping of the queue route before sorting: position is the
issue number ("const position = issue.number"), the ETA is computed from that
value for queued items, and building items get the default progress descriptor
(getBuildProgress returns null). -/
def processIssue (issue : Issue) : QueueEntry :=
  let status := deriveStatus issue.labels
  let priority := derivePriority issue.labels
  let position := issue.number
  let progress := if status = QStatus.building then some ("Building feature...", 50) else none
  let eta := if status = QStatus.queued then some (calculateETA position 10) else none
  ⟨issue.number, issue.title, position, status, priority, eta, progress⟩

/-- priorityOrder of the queue route: express 0, priority 1, standard 2. -/
def priorityRank : QPriority → Nat
  | .express => 0
  | .priority => 1
  | .standard => 2

/-- The sort comparator as a total preorder: by priority rank, then by the
pre-sort position field (the issue number). -/
def queueLe (a b : QueueEntry) : Bool :=
  if priorityRank a.priority < priorityRank b.priority then true
  else if priorityRank b.priority < priorityRank a.priority then false
  else decide (a.position ≤ b.position)

/-- Stable insertion of x after every element y with queueLe y x. -/
def insertOrdered (x : QueueEntry) : List QueueEntry → List QueueEntry
  | [] => [x]
  | y :: ys => if queueLe y x then y :: insertOrdered x ys else x :: y :: ys

/-- Stable sort by queueLe (items.sort of the route; JS Array.prototype.sort
is stable, and a stable sort for a total preorder is unique, so insertion sort
computes the same list). -/
def sortQueue (l : List QueueEntry) : List QueueEntry :=
  l.foldl (fun acc x => insertOrdered x acc) []

/-- The recalculation after sorting: item.position = index + 1. -/
def assignPositions (l : List QueueEntry) : List QueueEntry :=
  l.enum.map (fun p => { p.2 with position := p.1 + 1 })

/-- The queue response: items plus the totals. -/
structure QueueResponse where
  items : List QueueEntry
  total : Nat
  queued : Nat
  building : Nat
  completed : Nat
  failed : Nat
deriving DecidableEq, Repr

/-- GET of apps/portal/app/api/queue/route.ts over an already-fetched issue
snapshot: map, sort, reassign positions, count. -/
def queueGET (issues : List Issue) : QueueResponse :=
  let items0 := issues.map processIssue
  let items := assignPositions (sortQueue items0)
  ⟨items, items.length,
    (items.filter (fun i => i.status = QStatus.queued)).length,
    (items.filter (fun i => i.status = QStatus.building)).length,
    (items.filter (fun i => i.status = QStatus.completed)).length,
    (items.filter (fun i => i.status = QStatus.failed)).length⟩

/-! Concrete fixtures used by the theorems below. -/

/-- A database holding one pending solana payment of 10000 stored units. -/
def dbPendingOne : Db :=
  ⟨[⟨1, "stripe_pending_1", 10000, "usd", "solana", "standard", PStatus.pending, none, none⟩], []⟩

/-- A database holding one expired card payment. -/
def dbExpiredOne : Db :=
  ⟨[⟨1, "stripe_pending_1", 10000, "usd", "stripe", "standard", PStatus.expired, none, none⟩], []⟩

/-- A database holding one failed card payment. -/
def dbFailedOne : Db :=
  ⟨[⟨1, "stripe_pending_1", 10000, "usd", "stripe", "standard", PStatus.failed, none, none⟩], []⟩

/-- A database holding one verified payment already linked to issue 5. -/
def dbVerifiedOne : Db :=
  ⟨[⟨1, "sig0", 10000, "usd", "stripe", "standard", PStatus.verified, some "t0", some 5⟩], []⟩

/-- A finalized transaction whose third account key is the configured wallet
and whose transferred token amount is 1. -/
def txToWallet : SolTx := ⟨false, ["feePayer", "senderAddr", "walletAddr"], 1, 1⟩

/-- An RPC view answering every signature with txToWallet. -/
def chainOne : String → Option SolTx := fun _ => some txToWallet

/-- Two open issues: a plain one and one labelled priority:priority. -/
def c6Issues : List Issue := [⟨1, "first", []⟩, ⟨2, "second", ["priority:priority"]⟩]

/-- One queued issue whose number is 100. -/
def c7Issues : List Issue := [⟨100, "lone", ["ready-for-build"]⟩]

/-! Helper lemmas about the ledger operations. -/

/-- Finding a row after an id-preserving update of that id rewrites the found
row by the update function. -/
theorem findRow_map_update (pid : Nat) (f : Payment → Payment)
    (hid : ∀ q, (f q).id = q.id) :
    ∀ l : List Payment,
      findRow pid (l.map (fun p => if p.id = pid then f p else p))
        = (findRow pid l).map f := by
  intro l
  induction l with
  | nil => rfl
  | cons a t ih =>
    by_cases h : a.id = pid
    · simp [findRow, h, hid a]
    · simp [findRow, h, ih]

/-- findPayment after updatePayment at the same id. -/
theorem findPayment_updatePayment (db : Db) (pid : Nat) (f : Payment → Payment)
    (hid : ∀ q, (f q).id = q.id) :
    findPayment (updatePayment db pid f) pid = (findPayment db pid).map f :=
  findRow_map_update pid f hid db.payments

/-- findPayment after createIssueAndUpdateDb: only issue_number changes on the
found row (the requests insert does not touch payments). -/
theorem findPayment_createIssue (db : Db) (pid : Nat) (req prio : String) (n : Nat) :
    findPayment (createIssueAndUpdateDb db pid req prio n).1 pid
      = (findPayment db pid).map (fun q => { q with issue_number := some n }) :=
  findRow_map_update pid (fun q => { q with issue_number := some n }) (fun _ => rfl) db.payments

/-- createIssueAndUpdateDb appends exactly one requests row. -/
theorem requests_createIssue (db : Db) (pid : Nat) (req prio : String) (n : Nat) :
    (createIssueAndUpdateDb db pid req prio n).1.requests
      = db.requests ++ [⟨n, req, prio⟩] := rfl

/-- updatePayment leaves the requests table unchanged. -/
theorem requests_updatePayment (db : Db) (pid : Nat) (f : Payment → Payment) :
    (updatePayment db pid f).requests = db.requests := rfl

/-- Membership in the priority literal list. -/
theorem includes_validPriorities_iff (x : String) :
    includes validPriorities x = true ↔
      (x = "standard" ∨ x = "priority" ∨ x = "express") := by
  by_cases h1 : x = "standard" <;> by_cases h2 : x = "priority" <;>
    by_cases h3 : x = "express" <;> simp [validPriorities, includes, h1, h2, h3]

/-- Membership in the method literal list. -/
theorem includes_validMethods_iff (x : String) :
    includes validMethods x = true ↔ (x = "stripe" ∨ x = "solana") := by
  by_cases h1 : x = "stripe" <;> by_cases h2 : x = "solana" <;>
    simp [validMethods, includes, h1, h2]

/-! Claim theorems. -/

/-- C1: refuted by the source — the submit route stores and charges
getPricing(tier) * 100, not price(tier).  getPricing already returns minor
units by its own comments (100 is "$1"), and the route multiplies by 100
again, so the pending amount and the Stripe unit_amount are one hundred times
price(tier) for every tier; in particular a standard submission carries 10000
instead of price(standard) = 100. -/
theorem C1_charge_is_double_converted :
    getPricing "standard" = 100 ∧ submitChargeAmount "standard" = 10000 ∧
    getPricing "priority" = 500 ∧ submitChargeAmount "priority" = 50000 ∧
    getPricing "express" = 1000 ∧ submitChargeAmount "express" = 100000 ∧
    submitChargeAmount "standard" ≠ getPricing "standard" := by decide

/-- C2 counterexample: with payment 1 expired, a signature-valid paid
checkout-completed event for it does not fail with any stale-transition error:
it answers 200, rewrites the status to verified and creates a work item. -/
theorem C2_cex_expired_payment_reverified :
    (stripeWebhookPOST true (StripeEvent.checkoutCompleted "paid" 1 "Add login" "standard")
        dbExpiredOne "t1" 7).httpStatus = 200 ∧
    (findPayment (stripeWebhookPOST true (StripeEvent.checkoutCompleted "paid" 1 "Add login"
        "standard") dbExpiredOne "t1" 7).db 1).map Payment.status = some PStatus.verified ∧
    (stripeWebhookPOST true (StripeEvent.checkoutCompleted "paid" 1 "Add login" "standard")
        dbExpiredOne "t1" 7).issues.length = 1 := by decide

/-- C2 amended: for a Payment whose status is expired or failed, a subsequent
verification signal is not rejected — there is no StaleTransition.  The card
webhook on a paid checkout-completed event sets the status to verified and
creates a work item; the token route re-runs chain verification and, when the
transaction passes, also sets the status to verified and creates a work item. -/
theorem C2_amended_stale_is_reverified
    (db : Db) (pid nextIssue : Nat) (p : Payment)
    (req prio now sig wallet sender : String) (chain : String → Option SolTx)
    (hfind : findPayment db pid = some p)
    (hstale : p.status = PStatus.expired ∨ p.status = PStatus.failed)
    (hpid : pid ≠ 0) (hsig : sig ≠ "") (hreq : req ≠ "") (hprio : prio ≠ "")
    (hchain : verifySolanaTransaction (chain sig) (p.amount / 100) wallet
        = VerifyResult.valid sender) :
    ((stripeWebhookPOST true (StripeEvent.checkoutCompleted "paid" pid req prio) db now
        nextIssue).httpStatus = 200 ∧
      (findPayment (stripeWebhookPOST true (StripeEvent.checkoutCompleted "paid" pid req prio)
        db now nextIssue).db pid).map Payment.status = some PStatus.verified ∧
      (stripeWebhookPOST true (StripeEvent.checkoutCompleted "paid" pid req prio) db now
        nextIssue).issues.length = 1) ∧
    ((solanaPOST db pid sig req prio (some wallet) chain now nextIssue).httpStatus = 200 ∧
      (findPayment (solanaPOST db pid sig req prio (some wallet) chain now
        nextIssue).db pid).map Payment.status = some PStatus.verified ∧
      (solanaPOST db pid sig req prio (some wallet) chain now nextIssue).issues.length = 1) := by
  have hnv : ¬ p.status = PStatus.verified := by
    rcases hstale with h | h <;> simp [h]
  have hs : stripeWebhookPOST true (StripeEvent.checkoutCompleted "paid" pid req prio) db now
      nextIssue
      = ⟨200, true,
        (createIssueAndUpdateDb (updatePayment db pid (fun q =>
          { q with status := PStatus.verified, verified_at := some now })) pid req prio
          nextIssue).1,
        [(createIssueAndUpdateDb (updatePayment db pid (fun q =>
          { q with status := PStatus.verified, verified_at := some now })) pid req prio
          nextIssue).2]⟩ := by
    simp [stripeWebhookPOST, handleStripeEvent, hfind, hnv]
  have hsdb : findPayment (createIssueAndUpdateDb (updatePayment db pid (fun q =>
      { q with status := PStatus.verified, verified_at := some now })) pid req prio
      nextIssue).1 pid
      = some { p with status := PStatus.verified, verified_at := some now, issue_number := some nextIssue } := by
    rw [findPayment_createIssue,
      findPayment_updatePayment db pid (fun q =>
        { q with status := PStatus.verified, verified_at := some now }) (fun q => rfl), hfind]
    rfl
  have hv : solanaPOST db pid sig req prio (some wallet) chain now nextIssue
      = ⟨200,
        (createIssueAndUpdateDb (updatePayment db pid (fun q =>
          { q with status := PStatus.verified, verified_at := some now,
                   payment_id := sig })) pid req prio nextIssue).1,
        [(createIssueAndUpdateDb (updatePayment db pid (fun q =>
          { q with status := PStatus.verified, verified_at := some now,
                   payment_id := sig })) pid req prio nextIssue).2],
        some sender⟩ := by
    simp [solanaPOST, hfind, hnv, hpid, hsig, hreq, hprio, hchain]
  have hvdb : findPayment (createIssueAndUpdateDb (updatePayment db pid (fun q =>
      { q with status := PStatus.verified, verified_at := some now,
               payment_id := sig })) pid req prio nextIssue).1 pid
      = some { p with status := PStatus.verified, verified_at := some now, payment_id := sig, issue_number := some nextIssue } := by
    rw [findPayment_createIssue,
      findPayment_updatePayment db pid (fun q =>
        { q with status := PStatus.verified, verified_at := some now, payment_id := sig })
        (fun q => rfl), hfind]
    rfl
  refine ⟨⟨?_, ?_, ?_⟩, ?_, ?_, ?_⟩
  · rw [hs]
  · rw [hs]; rw [show (⟨200, true,
        (createIssueAndUpdateDb (updatePayment db pid (fun q =>
          { q with status := PStatus.verified, verified_at := some now })) pid req prio
          nextIssue).1,
        [(createIssueAndUpdateDb (updatePayment db pid (fun q =>
          { q with status := PStatus.verified, verified_at := some now })) pid req prio
          nextIssue).2]⟩ : WebhookResult).db
      = (createIssueAndUpdateDb (updatePayment db pid (fun q =>
          { q with status := PStatus.verified, verified_at := some now })) pid req prio
          nextIssue).1 from rfl, hsdb]; rfl
  · rw [hs]; rfl
  · rw [hv]
  · rw [hv]; rw [show (⟨200,
        (createIssueAndUpdateDb (updatePayment db pid (fun q =>
          { q with status := PStatus.verified, verified_at := some now,
                   payment_id := sig })) pid req prio nextIssue).1,
        [(createIssueAndUpdateDb (updatePayment db pid (fun q =>
          { q with status := PStatus.verified, verified_at := some now,
                   payment_id := sig })) pid req prio nextIssue).2],
        some sender⟩ : SolanaResult).db
      = (createIssueAndUpdateDb (updatePayment db pid (fun q =>
          { q with status := PStatus.verified, verified_at := some now,
                   payment_id := sig })) pid req prio nextIssue).1 from rfl, hvdb]; rfl
  · rw [hv]; rfl

/-- C2 amended, witnessed at the expired payment of dbExpiredOne with the
always-passing chain view chainOne. -/
theorem C2_amended_stale_is_reverified_witness :
    ((stripeWebhookPOST true (StripeEvent.checkoutCompleted "paid" 1 "Add login" "standard")
        dbExpiredOne "t1" 7).httpStatus = 200 ∧
      (findPayment (stripeWebhookPOST true (StripeEvent.checkoutCompleted "paid" 1 "Add login"
        "standard") dbExpiredOne "t1" 7).db 1).map Payment.status = some PStatus.verified ∧
      (stripeWebhookPOST true (StripeEvent.checkoutCompleted "paid" 1 "Add login" "standard")
        dbExpiredOne "t1" 7).issues.length = 1) ∧
    ((solanaPOST dbExpiredOne 1 "sig9" "Add login" "standard" (some "walletAddr") chainOne
        "t1" 7).httpStatus = 200 ∧
      (findPayment (solanaPOST dbExpiredOne 1 "sig9" "Add login" "standard" (some "walletAddr")
        chainOne "t1" 7).db 1).map Payment.status = some PStatus.verified ∧
      (solanaPOST dbExpiredOne 1 "sig9" "Add login" "standard" (some "walletAddr") chainOne
        "t1" 7).issues.length = 1) :=
  C2_amended_stale_is_reverified dbExpiredOne 1 7
    ⟨1, "stripe_pending_1", 10000, "usd", "stripe", "standard", PStatus.expired, none, none⟩
    "Add login" "standard" "t1" "sig9" "walletAddr" "senderAddr" chainOne
    (by decide) (Or.inl rfl) (by decide) (by decide) (by decide) (by decide) (by decide)

/-- C3: confirmed — for a Payment already verified, a further paid
checkout-completed event and a further token verification call are idempotent
no-ops: both routes answer 200 with the success body, leave the database
untouched and create no work item (the verified guard short-circuits before
any mutation). -/
theorem C3_verified_signal_is_noop
    (db : Db) (pid nextIssue : Nat) (p : Payment)
    (req prio now sig wallet : String) (chain : String → Option SolTx)
    (hfind : findPayment db pid = some p) (hver : p.status = PStatus.verified)
    (hpid : pid ≠ 0) (hsig : sig ≠ "") (hreq : req ≠ "") (hprio : prio ≠ "") :
    stripeWebhookPOST true (StripeEvent.checkoutCompleted "paid" pid req prio) db now nextIssue
      = ⟨200, true, db, []⟩ ∧
    solanaPOST db pid sig req prio (some wallet) chain now nextIssue = ⟨200, db, [], none⟩ := by
  constructor
  · simp [stripeWebhookPOST, handleStripeEvent, hfind, hver]
  · simp [solanaPOST, hfind, hver, hpid, hsig, hreq, hprio]

/-- C3 witnessed at the verified payment of dbVerifiedOne. -/
theorem C3_verified_signal_is_noop_witness :
    stripeWebhookPOST true (StripeEvent.checkoutCompleted "paid" 1 "Add login" "standard")
        dbVerifiedOne "t2" 8 = ⟨200, true, dbVerifiedOne, []⟩ ∧
    solanaPOST dbVerifiedOne 1 "sig9" "Add login" "standard" (some "walletAddr") chainOne
        "t2" 8 = ⟨200, dbVerifiedOne, [], none⟩ :=
  C3_verified_signal_is_noop dbVerifiedOne 1 8
    ⟨1, "sig0", 10000, "usd", "stripe", "standard", PStatus.verified, some "t0", some 5⟩
    "Add login" "standard" "t2" "sig9" "walletAddr" chainOne
    (by decide) rfl (by decide) (by decide) (by decide) (by decide)

/-- C4 counterexample: delivering a signature-valid checkout-expired event for
the verified payment of dbVerifiedOne does not get rejected — it answers 200
and overwrites the verified status with expired. -/
theorem C4_cex_expiry_overwrites_verified :
    (stripeWebhookPOST true (StripeEvent.checkoutExpired 1) dbVerifiedOne "t3" 9).httpStatus
      = 200 ∧
    (findPayment (stripeWebhookPOST true (StripeEvent.checkoutExpired 1) dbVerifiedOne "t3"
        9).db 1).map Payment.status = some PStatus.expired := by decide

/-- C4 amended: handling a checkout-expired event for a verified Payment is
not rejected: the handler answers 200 and overwrites the status with expired
(there is no StaleTransition).  The claim's side conditions on work items do
hold: the expiry branch creates no issue, removes none, and leaves both the
payment's linked issue number and the requests table unchanged. -/
theorem C4_amended_expiry_overwrites
    (db : Db) (pid nextIssue : Nat) (p : Payment) (now : String)
    (hpid : 0 < pid) (hfind : findPayment db pid = some p)
    (hver : p.status = PStatus.verified) :
    (stripeWebhookPOST true (StripeEvent.checkoutExpired pid) db now nextIssue).httpStatus
      = 200 ∧
    (findPayment (stripeWebhookPOST true (StripeEvent.checkoutExpired pid) db now
      nextIssue).db pid).map Payment.status = some PStatus.expired ∧
    (stripeWebhookPOST true (StripeEvent.checkoutExpired pid) db now nextIssue).issues = [] ∧
    (stripeWebhookPOST true (StripeEvent.checkoutExpired pid) db now nextIssue).db.requests
      = db.requests ∧
    (findPayment (stripeWebhookPOST true (StripeEvent.checkoutExpired pid) db now
      nextIssue).db pid).map Payment.issue_number = some p.issue_number := by
  have hr : stripeWebhookPOST true (StripeEvent.checkoutExpired pid) db now nextIssue
      = ⟨200, true, updatePayment db pid (fun q => { q with status := PStatus.expired }), []⟩ := by
    simp [stripeWebhookPOST, handleStripeEvent, hpid]
  have hdb : findPayment (updatePayment db pid (fun q =>
      { q with status := PStatus.expired })) pid
      = some { p with status := PStatus.expired } := by
    rw [findPayment_updatePayment db pid (fun q => { q with status := PStatus.expired })
      (fun q => rfl), hfind]
    rfl
  refine ⟨?_, ?_, ?_, ?_, ?_⟩
  · rw [hr]
  · rw [hr]
    rw [show (⟨200, true, updatePayment db pid (fun q => { q with status := PStatus.expired }),
      []⟩ : WebhookResult).db
      = updatePayment db pid (fun q => { q with status := PStatus.expired }) from rfl, hdb]
    rfl
  · rw [hr]
  · rw [hr]; rfl
  · rw [hr]
    rw [show (⟨200, true, updatePayment db pid (fun q => { q with status := PStatus.expired }),
      []⟩ : WebhookResult).db
      = updatePayment db pid (fun q => { q with status := PStatus.expired }) from rfl, hdb]
    rfl

/-- C4 amended, witnessed at the verified payment of dbVerifiedOne. -/
theorem C4_amended_expiry_overwrites_witness :
    (stripeWebhookPOST true (StripeEvent.checkoutExpired 1) dbVerifiedOne "t3" 9).httpStatus
      = 200 ∧
    (findPayment (stripeWebhookPOST true (StripeEvent.checkoutExpired 1) dbVerifiedOne "t3"
      9).db 1).map Payment.status = some PStatus.expired ∧
    (stripeWebhookPOST true (StripeEvent.checkoutExpired 1) dbVerifiedOne "t3" 9).issues = [] ∧
    (stripeWebhookPOST true (StripeEvent.checkoutExpired 1) dbVerifiedOne "t3" 9).db.requests
      = dbVerifiedOne.requests ∧
    (findPayment (stripeWebhookPOST true (StripeEvent.checkoutExpired 1) dbVerifiedOne "t3"
      9).db 1).map Payment.issue_number = some (Payment.issue_number
        ⟨1, "sig0", 10000, "usd", "stripe", "standard", PStatus.verified, some "t0", some 5⟩) :=
  C4_amended_expiry_overwrites dbVerifiedOne 1 9
    ⟨1, "sig0", 10000, "usd", "stripe", "standard", PStatus.verified, some "t0", some 5⟩
    "t3" (by decide) (by decide) rfl

/-- C5: refuted by the source — verifySolanaTransaction never reads the
transferred amount (its expectedAmount parameter is unused): a finalized
transaction whose third account key matches the wallet is accepted even though
its transferred token amount (1) differs from the Payment's converted amount
(10000 / 100 = 100); the route then marks the payment verified and creates a
work item instead of failing with TransferMismatch and marking it failed. -/
theorem C5_transfer_amount_not_checked :
    txToWallet.transferAmount = 1 ∧
    dbPendingOne.payments.map Payment.amount = [10000] ∧
    verifySolanaTransaction (some txToWallet) 100 "walletAddr"
      = VerifyResult.valid "senderAddr" ∧
    (solanaPOST dbPendingOne 1 "sig9" "Add login" "standard" (some "walletAddr") chainOne
      "t4" 9).httpStatus = 200 ∧
    (findPayment (solanaPOST dbPendingOne 1 "sig9" "Add login" "standard" (some "walletAddr")
      chainOne "t4" 9).db 1).map Payment.status = some PStatus.verified ∧
    (solanaPOST dbPendingOne 1 "sig9" "Add login" "standard" (some "walletAddr") chainOne
      "t4" 9).issues.length = 1 := by decide

/-- C6: refuted by the source — the queue route derives the priority tier
from the literal label 'priority', not 'priority:priority', while the issue
creators label priority-tier issues 'priority:priority'; such an item is
therefore ranked standard, so it does not precede items with neither label:
on c6Issues the claimed order is [2, 1] but the computed order is [1, 2]. -/
theorem C6_priority_label_not_recognized :
    issueLabels "priority" = ["ready-for-build", "priority:priority"] ∧
    derivePriority ["ready-for-build", "priority:priority"] = QPriority.standard ∧
    derivePriority ["priority"] = QPriority.priority ∧
    (queueGET c6Issues).items.map QueueEntry.id = [1, 2] ∧
    (queueGET c6Issues).items.map QueueEntry.priority
      = [QPriority.standard, QPriority.standard] := by decide

/-- C7: refuted by the source — the ETA is computed from the pre-sort
position, which is the issue number, and is not recomputed after positions
are reassigned: the single queued issue number 100 gets final position 1 but
eta "~10 hours" (ceil(100 / 10)), where the claim requires
calculateETA 1 = "~1 hour". -/
theorem C7_eta_uses_presort_number :
    (queueGET c7Issues).items
      = [⟨100, "lone", 1, QStatus.queued, QPriority.standard, some "~10 hours", none⟩] ∧
    calculateETA 1 10 = "~1 hour" ∧
    calculateETA 100 10 = "~10 hours" ∧
    ("~10 hours" : String) ≠ "~1 hour" := by decide

/-- C8: refuted by the source — the submit INSERT names six columns but the
route binds only five values (the status value is missing), and the statement
omits the NOT NULL column issue_number, so run() raises, the catch block
answers 500, and no pending row is written: a fully valid standard submission
produces serverError and leaves the database empty. -/
theorem C8_insert_never_succeeds :
    bindCount submitInsertSql = 6 ∧
    (submitInsertParams "stripe_pending_1" 10000 "stripe" "standard").length = 5 ∧
    insertSatisfiesNotNull = false ∧
    submitPOST ⟨[], []⟩ "Add a login form" "stripe" "standard" "stripe_pending_1" 1
      = (SubmitResp.serverError, ⟨[], []⟩) := by decide

/-- C9: confirmed — every submission whose text is empty, whose text exceeds
120 characters, whose payment method is outside {stripe, solana}, or whose
tier is outside {standard, priority, express} is answered with a 400
validation error and the database is returned unchanged: all four checks run
before the INSERT. -/
theorem C9_validation_rejects_before_write (db : Db)
    (requestText paymentMethod priority extRef : String) (newId : Nat)
    (h : requestText = "" ∨ 120 < requestText.length ∨
         ¬ (paymentMethod = "stripe" ∨ paymentMethod = "solana") ∨
         ¬ (priority = "standard" ∨ priority = "priority" ∨ priority = "express")) :
    ∃ msg, submitPOST db requestText paymentMethod priority extRef newId
      = (SubmitResp.badRequest msg, db) := by
  by_cases h1 : jsTrim requestText = ""
  · exact ⟨"Request text is required", by simp [submitPOST, h1]⟩
  by_cases h2 : 120 < requestText.length
  · exact ⟨"Request must be 120 characters or less", by simp [submitPOST, h1, h2]⟩
  cases h3 : includes validPriorities priority with
  | false => exact ⟨"Invalid priority", by simp [submitPOST, h1, h2, h3]⟩
  | true =>
    cases h4 : includes validMethods paymentMethod with
    | false => exact ⟨"Invalid payment method", by simp [submitPOST, h1, h2, h3, h4]⟩
    | true =>
      exfalso
      rcases h with h | h | h | h
      · exact h1 (by rw [h]; decide)
      · exact h2 h
      · exact h ((includes_validMethods_iff paymentMethod).mp h4)
      · exact h ((includes_validPriorities_iff priority).mp h3)

/-- C9 witnessed at an over-long request text (121 characters of x). -/
theorem C9_validation_rejects_before_write_witness :
    ∃ msg, submitPOST ⟨[], []⟩
        (String.mk (List.replicate 121 'x')) "stripe" "standard" "stripe_pending_1" 1
      = (SubmitResp.badRequest msg, (⟨[], []⟩ : Db)) :=
  C9_validation_rejects_before_write ⟨[], []⟩
    (String.mk (List.replicate 121 'x')) "stripe" "standard" "stripe_pending_1" 1
    (Or.inr (Or.inl (by decide)))

/-- C10: confirmed — a signature-valid checkout.session.completed event whose
payment_status is not 'paid' is acknowledged with 200 and the received body
while the database is returned unchanged and no work item is created: the
paid guard skips the whole verification block. -/
theorem C10_unpaid_completed_is_noop (db : Db) (ps req prio now : String)
    (pid nextIssue : Nat) (h : ps ≠ "paid") :
    stripeWebhookPOST true (StripeEvent.checkoutCompleted ps pid req prio) db now nextIssue
      = ⟨200, true, db, []⟩ := by
  simp [stripeWebhookPOST, handleStripeEvent, h]

/-- C10 witnessed at payment_status 'unpaid' over dbPendingOne. -/
theorem C10_unpaid_completed_is_noop_witness :
    stripeWebhookPOST true (StripeEvent.checkoutCompleted "unpaid" 1 "Add login" "standard")
        dbPendingOne "t5" 3 = ⟨200, true, dbPendingOne, []⟩ :=
  C10_unpaid_completed_is_noop dbPendingOne "unpaid" "Add login" "standard" "t5" 1 3
    (by decide)
